import Mathlib

/-!
Verification of the Voice-Notes drawing application.

Shallow embedding of the frontend drawing model (`src/frontend/src/App.tsx`:
stroke store with history and redo stacks, pointer event handlers, canvas
redraw, localStorage persistence, and the `sendToAPI` speak pipeline from the
`src/unnamed/part_002` frontend variant) and the backend `/api/speak`
handler (`src/backend/src/index.ts`).

Coordinates and sizes are modelled as `Int` (the claims under study never
depend on fractional values); canvas pixels are modelled as the free term
algebra over the exact primitive calls the code makes (`clearRect` on the
whole canvas, `stroke` of a path with the current line width, style and
composite mode), which is the honest shallow embedding of an opaque
rasteriser: two pixel buffers are equal exactly when the same primitive
operations were applied in the same order with the same arguments.
-/

namespace VoiceNotes

/-- `type Point = { x: number; y: number }` (App.tsx line 4). -/
structure Point where
  x : Int
  y : Int
deriving DecidableEq, Repr

/-- `type Stroke = { points, color, size, erase }` (App.tsx lines 6-11). -/
structure Stroke where
  points : List Point
  color : String
  size : Int
  erase : Bool
deriving DecidableEq, Repr

/-- The React state of `App` that the drawing events read and write
(App.tsx lines 17-23): `isDrawing`, `color`, `size`, `eraseMode`,
`history`, `redo`. -/
structure AppState where
  isDrawing : Bool
  color : String
  size : Int
  eraseMode : Bool
  history : List Stroke
  redo : List Stroke
deriving DecidableEq, Repr

/-- `startDrawing` (App.tsx lines 106-119): sets `isDrawing` to true,
clears the redo stack, and appends to history a new stroke whose points
list is `[pos]`, with the current color, size and erase mode. -/
def startDrawing (pos : Point) (s : AppState) : AppState :=
  { s with
    isDrawing := true
    redo := []
    history := s.history ++ [{ points := [pos], color := s.color,
                               size := s.size, erase := s.eraseMode }] }

/-- `draw` (App.tsx lines 121-132): returns unchanged when `isDrawing` is
false; otherwise pushes `pos` onto `updated[updated.length - 1].points`.
When history is empty, `updated[updated.length - 1]` is `undefined` in the
source and the property read throws, modelled by `Except.error`. -/
def draw (pos : Point) (s : AppState) : Except String AppState :=
  if s.isDrawing = false then .ok s
  else
    match s.history.getLast? with
    | none => .error "TypeError: Cannot read properties of undefined"
    | some st =>
        .ok { s with history :=
          s.history.dropLast ++ [{ st with points := st.points ++ [pos] }] }

/-- `stopDrawing` (App.tsx lines 134-136). -/
def stopDrawing (s : AppState) : AppState :=
  { s with isDrawing := false }

/-- `undo` (App.tsx lines 141-148): when history is non-empty, appends its
last stroke to the redo stack and drops it from history; otherwise
unchanged. -/
def undo (s : AppState) : AppState :=
  match s.history.getLast? with
  | none => s
  | some last => { s with history := s.history.dropLast,
                          redo := s.redo ++ [last] }

/-- `redoAction` (App.tsx lines 150-157): when the redo stack is non-empty,
appends its last stroke to history and drops it from the redo stack;
otherwise unchanged. -/
def redoAction (s : AppState) : AppState :=
  match s.redo.getLast? with
  | none => s
  | some last => { s with redo := s.redo.dropLast,
                          history := s.history ++ [last] }

/-- `clearAll` (App.tsx lines 159-162). -/
def clearAll (s : AppState) : AppState :=
  { s with history := [], redo := [] }

/-! ### Basic lemmas about undo / redo -/

lemma undo_concat (s : AppState) (h₀ : List Stroke) (st : Stroke)
    (hh : s.history = h₀ ++ [st]) :
    undo s = { s with history := h₀, redo := s.redo ++ [st] } := by
  simp [undo, hh, List.getLast?_concat, List.dropLast_concat]

lemma redoAction_concat (s : AppState) (r₀ : List Stroke) (st : Stroke)
    (hr : s.redo = r₀ ++ [st]) :
    redoAction s = { s with redo := r₀, history := s.history ++ [st] } := by
  simp [redoAction, hr, List.getLast?_concat, List.dropLast_concat]

lemma redoAction_undo (s : AppState) (hne : s.history ≠ []) :
    redoAction (undo s) = s := by
  rcases (List.eq_nil_or_concat s.history) with h | ⟨h₀, st, hh⟩
  · exact absurd h hne
  · rw [List.concat_eq_append] at hh
    rw [undo_concat s h₀ st hh,
        redoAction_concat { s with history := h₀, redo := s.redo ++ [st] }
          s.redo st rfl]
    rw [← hh]

lemma undo_history_length (s : AppState) (hne : s.history ≠ []) :
    (undo s).history.length + 1 = s.history.length := by
  rcases (List.eq_nil_or_concat s.history) with h | ⟨h₀, st, hh⟩
  · exact absurd h hne
  · rw [List.concat_eq_append] at hh
    rw [undo_concat s h₀ st hh, hh]
    simp

lemma roundtrip_aux :
    ∀ (n : Nat) (s : AppState), n ≤ s.history.length →
      redoAction^[n] (undo^[n] s) = s := by
  intro n
  induction n with
  | zero => intro s _; simp
  | succ k ih =>
    intro s hs
    have hne : s.history ≠ [] := by
      intro h
      rw [h] at hs
      simp at hs
    have hlen : k ≤ (undo s).history.length := by
      have := undo_history_length s hne
      omega
    rw [Function.iterate_succ_apply' redoAction k,
        Function.iterate_succ_apply undo k s,
        ih (undo s) hlen, redoAction_undo s hne]

/-! ### C1: undo / redo round trip -/

/-- A state with one stroke in history and one (different) stroke already
sitting in the redo buffer. -/
def c1State : AppState :=
  { isDrawing := false, color := "#000000", size := 5, eraseMode := false
    history := [{ points := [{ x := 0, y := 0 }], color := "#000000",
                  size := 5, erase := false }]
    redo := [{ points := [{ x := 9, y := 9 }], color := "#000000",
               size := 5, erase := false }] }

/-- C1 fails as stated: starting from a History of one stroke and a
non-empty Redo Buffer, two `undo` calls (the second a no-op on the empty
History) followed by two `redo` calls re-apply the pre-existing redo entry
as well, so the resulting History is not the original one. -/
theorem c1_counterexample :
    (redoAction^[2] (undo^[2] c1State)).history ≠ c1State.history := by
  decide

/-- C1 (amended): performing `n` undo calls followed by `n` redo calls
restores the exact starting state provided `n` does not exceed the length
of the starting History (without that bound, surplus redos can re-apply
strokes that were already in the Redo Buffer before the sequence).
Moreover each individual undo (resp. redo) on a state whose History
(resp. Redo Buffer) is non-empty moves exactly that one last Stroke,
unchanged, to the Redo Buffer (resp. to the end of History). -/
theorem c1_undo_redo_roundtrip (s : AppState) (n : Nat)
    (hn : n ≤ s.history.length)
    (t u : AppState) (h₀ r₀ : List Stroke) (st st' : Stroke)
    (ht : t.history = h₀ ++ [st]) (hu : u.redo = r₀ ++ [st']) :
    redoAction^[n] (undo^[n] s) = s ∧
    ((undo t).history = h₀ ∧ (undo t).redo = t.redo ++ [st]) ∧
    ((redoAction u).history = u.history ++ [st'] ∧ (redoAction u).redo = r₀) := by
  refine ⟨roundtrip_aux n s hn, ?_, ?_⟩
  · rw [undo_concat t h₀ st ht]
    exact ⟨rfl, rfl⟩
  · rw [redoAction_concat u r₀ st' hu]
    exact ⟨rfl, rfl⟩

/-- Witness for C1 at a concrete input: one stroke in History, `n = 1`. -/
theorem c1_witness :
    1 ≤ c1State.history.length ∧
    c1State.history =
      [] ++ [{ points := [{ x := 0, y := 0 }], color := "#000000",
               size := 5, erase := false }] ∧
    c1State.redo =
      [] ++ [{ points := [{ x := 9, y := 9 }], color := "#000000",
               size := 5, erase := false }] ∧
    (redoAction^[1] (undo^[1] c1State) = c1State ∧
      ((undo c1State).history = [] ∧
       (undo c1State).redo = c1State.redo ++
         [{ points := [{ x := 0, y := 0 }], color := "#000000",
            size := 5, erase := false }]) ∧
      ((redoAction c1State).history = c1State.history ++
         [{ points := [{ x := 9, y := 9 }], color := "#000000",
            size := 5, erase := false }] ∧
       (redoAction c1State).redo = [])) :=
  ⟨by decide, by decide, by decide,
    c1_undo_redo_roundtrip c1State 1 (by decide) c1State c1State [] []
      { points := [{ x := 0, y := 0 }], color := "#000000",
        size := 5, erase := false }
      { points := [{ x := 9, y := 9 }], color := "#000000",
        size := 5, erase := false }
      (by decide) (by decide)⟩

/-! ### C2: beginning a new stroke clears the Redo Buffer -/

/-- The UI events that mutate the drawing state (App.tsx lines 106-162,
191-206): pointer down / move / up on the canvas and the Undo / Redo /
"Nueva nota" toolbar buttons. -/
inductive CanvasEvent where
  | pointerDown (pos : Point)
  | pointerMove (pos : Point)
  | pointerUp
  | undoClick
  | redoClick
  | clearClick
deriving DecidableEq, Repr

/-- One event dispatch, as wired in the JSX (`onMouseDown={startDrawing}`,
`onMouseMove={draw}`, `onMouseUp={stopDrawing}`, toolbar onClick
handlers). `draw` can throw, so the step is fallible. -/
def step (s : AppState) : CanvasEvent → Except String AppState
  | .pointerDown p => .ok (startDrawing p s)
  | .pointerMove p => draw p s
  | .pointerUp => .ok (stopDrawing s)
  | .undoClick => .ok (undo s)
  | .redoClick => .ok (redoAction s)
  | .clearClick => .ok (clearAll s)

/-- Run a sequence of UI events, stopping at the first thrown exception. -/
def runEvents (s : AppState) : List CanvasEvent → Except String AppState
  | [] => .ok s
  | e :: es =>
    match step s e with
    | .ok s' => runEvents s' es
    | .error msg => .error msg

lemma redoAction_empty (t : AppState) (h : t.redo = []) : redoAction t = t := by
  simp [redoAction, h]

lemma step_preserves_redo_empty (s s' : AppState) (e : CanvasEvent)
    (hne : e ≠ CanvasEvent.undoClick) (hr : s.redo = [])
    (hstep : step s e = .ok s') : s'.redo = [] := by
  cases e with
  | pointerDown p =>
    simp only [step, Except.ok.injEq] at hstep
    rw [← hstep]
    rfl
  | pointerMove p =>
    simp only [step, draw] at hstep
    by_cases hd : s.isDrawing = false
    · simp [hd] at hstep
      rw [← hstep]
      exact hr
    · simp [hd] at hstep
      cases hlast : s.history.getLast? with
      | none => simp [hlast] at hstep
      | some st =>
        simp [hlast] at hstep
        rw [← hstep]
        exact hr
  | pointerUp =>
    simp only [step, Except.ok.injEq] at hstep
    rw [← hstep]
    exact hr
  | undoClick => exact absurd rfl hne
  | redoClick =>
    simp only [step, Except.ok.injEq] at hstep
    rw [← hstep, redoAction_empty s hr]
    exact hr
  | clearClick =>
    simp only [step, Except.ok.injEq] at hstep
    rw [← hstep]
    rfl

lemma runEvents_preserves_redo_empty :
    ∀ (evs : List CanvasEvent) (s t : AppState),
      CanvasEvent.undoClick ∉ evs → s.redo = [] →
      runEvents s evs = .ok t → t.redo = [] := by
  intro evs
  induction evs with
  | nil =>
    intro s t _ hr hrun
    simp only [runEvents, Except.ok.injEq] at hrun
    rw [← hrun]
    exact hr
  | cons e es ih =>
    intro s t hno hr hrun
    have hne : e ≠ CanvasEvent.undoClick := by
      intro h
      exact hno (h ▸ List.mem_cons_self e es)
    have hno' : CanvasEvent.undoClick ∉ es := fun h =>
      hno (List.mem_cons_of_mem e h)
    simp only [runEvents] at hrun
    cases hstep : step s e with
    | ok s' =>
      rw [hstep] at hrun
      exact ih s' t hno' (step_preserves_redo_empty s s' e hne hr hstep) hrun
    | error msg =>
      rw [hstep] at hrun
      exact absurd hrun (by simp)

/-- C2: beginning a new stroke (`startDrawing`, a fresh pointer-down)
empties the Redo Buffer, and after any further events that do not include
an undo, a `redo` click is a no-op on the whole state (in particular on
both History and the Redo Buffer). -/
theorem c2_start_clears_redo (p : Point) (s t : AppState)
    (evs : List CanvasEvent)
    (hno : CanvasEvent.undoClick ∉ evs)
    (hrun : runEvents (startDrawing p s) evs = .ok t) :
    (startDrawing p s).redo = [] ∧ t.redo = [] ∧ redoAction t = t := by
  have h0 : (startDrawing p s).redo = [] := rfl
  have ht : t.redo = [] :=
    runEvents_preserves_redo_empty evs (startDrawing p s) t hno h0 hrun
  exact ⟨h0, ht, redoAction_empty t ht⟩

/-- Initial session state (App.tsx lines 17-23): not drawing, black color,
size 5, erase off, empty History and Redo Buffer. -/
def initialState : AppState :=
  { isDrawing := false, color := "#000000", size := 5, eraseMode := false
    history := [], redo := [] }

/-- Concrete event trace for the C2 witness. -/
def c2Events : List CanvasEvent :=
  [CanvasEvent.pointerMove { x := 4, y := 5 }, CanvasEvent.pointerUp,
   CanvasEvent.redoClick]

/-- The state reached by the C2 witness trace. -/
def c2Final : AppState :=
  { isDrawing := false, color := "#000000", size := 5, eraseMode := false
    history := [{ points := [{ x := 2, y := 3 }, { x := 4, y := 5 }],
                  color := "#000000", size := 5, erase := false }]
    redo := [] }

/-- Witness for C2: draw one stroke of two points, lift the pointer, press
Redo: the Redo Buffer stays empty and the redo press changes nothing. -/
theorem c2_witness :
    CanvasEvent.undoClick ∉ c2Events ∧
    runEvents (startDrawing { x := 2, y := 3 } initialState) c2Events =
      .ok c2Final ∧
    ((startDrawing { x := 2, y := 3 } initialState).redo = [] ∧
     c2Final.redo = [] ∧ redoAction c2Final = c2Final) :=
  ⟨by decide, by rfl,
    c2_start_clears_redo { x := 2, y := 3 } initialState c2Final c2Events
      (by decide) (by rfl)⟩

/-! ### C4: beginStroke / startDrawing -/

/-- A state whose current thickness is non-positive (`size := -5`). The
UI slider cannot produce it, but the claim quantifies over every call. -/
def c4State : AppState :=
  { isDrawing := false, color := "#000000", size := -5, eraseMode := false
    history := [], redo := [] }

/-- A state with the default positive thickness. -/
def c4State' : AppState :=
  { isDrawing := false, color := "#000000", size := 5, eraseMode := false
    history := [], redo := [] }

/-- C4 fails as stated, on both counts: with thickness -5 ≤ 0,
`startDrawing` does not fail and does not leave History unchanged (it
appends a stroke); and with the ordinary thickness 5 the appended Stroke
contains one Point (the initial pointer position), not zero Points. -/
theorem c4_counterexample :
    (startDrawing { x := 1, y := 2 } c4State).history ≠ c4State.history ∧
    (startDrawing { x := 1, y := 2 } c4State).history =
      [{ points := [{ x := 1, y := 2 }], color := "#000000",
         size := -5, erase := false }] ∧
    ((startDrawing { x := 1, y := 2 } c4State').history.getLast?.map
        (fun st => st.points.length)) = some 1 := by
  refine ⟨by decide, by decide, by decide⟩

/-- C4 (amended): `startDrawing(pos)` performs no thickness validation —
it succeeds for every current thickness, including thickness ≤ 0 — and
appends to History a new Stroke containing exactly one Point (the initial
pointer position), with the current color, thickness and erase mode
captured on the Stroke; it clears the Redo Buffer and enters the drawing
state. -/
theorem c4_startDrawing_spec (pos : Point) (s : AppState) :
    (startDrawing pos s).history =
      s.history ++ [{ points := [pos], color := s.color,
                      size := s.size, erase := s.eraseMode }] ∧
    (startDrawing pos s).redo = [] ∧
    (startDrawing pos s).isDrawing = true := by
  exact ⟨rfl, rfl, rfl⟩

/-! ### C9: extendStroke / draw -/

/-- A state that is mid-gesture (`isDrawing = true`) with an empty
History: the defensive case the claim is about. -/
def c9BadState : AppState :=
  { isDrawing := true, color := "#000000", size := 5, eraseMode := false
    history := [], redo := [] }

/-- C9 fails as stated: in a state with empty History but an open gesture,
`draw` does not leave the state unchanged benignly — it throws a
TypeError (reading `.points` of `undefined`). -/
theorem c9_counterexample :
    draw { x := 1, y := 1 } c9BadState =
      Except.error "TypeError: Cannot read properties of undefined" := by
  rfl

/-- C9 (amended): when no pointer gesture is in progress
(`isDrawing = false`), `draw` is a benign no-op that does not raise.
When a gesture is open and History is non-empty, `draw` appends the Point
to the most recently begun Stroke. But when a gesture is open and History
is empty, `draw` throws instead of being a no-op. -/
theorem c9_draw_spec (p : Point) (s t u : AppState)
    (h₀ : List Stroke) (st : Stroke)
    (hs : s.isDrawing = false)
    (hti : t.isDrawing = true) (hth : t.history = h₀ ++ [st])
    (hui : u.isDrawing = true) (huh : u.history = []) :
    draw p s = .ok s ∧
    draw p t = .ok { t with history :=
      h₀ ++ [{ st with points := st.points ++ [p] }] } ∧
    draw p u =
      Except.error "TypeError: Cannot read properties of undefined" := by
  refine ⟨by simp [draw, hs], ?_, by simp [draw, hui, huh]⟩
  simp [draw, hti, hth, List.getLast?_concat, List.dropLast_concat]

/-- A state that is mid-gesture with one stroke already begun. -/
def c9Open : AppState :=
  { isDrawing := true, color := "#000000", size := 5, eraseMode := false
    history := [{ points := [{ x := 0, y := 0 }], color := "#000000",
                  size := 5, erase := false }]
    redo := [] }

/-- Witness for C9 at concrete inputs: an idle state, an open-gesture
state with one stroke, and the open-gesture state with empty History. -/
theorem c9_witness :
    c4State'.isDrawing = false ∧
    c9Open.isDrawing = true ∧
    c9Open.history = [] ++ [{ points := [{ x := 0, y := 0 }],
                              color := "#000000", size := 5,
                              erase := false }] ∧
    c9BadState.isDrawing = true ∧ c9BadState.history = [] ∧
    (draw { x := 7, y := 8 } c4State' = .ok c4State' ∧
     draw { x := 7, y := 8 } c9Open = .ok { c9Open with history :=
       [] ++ [{ points := [{ x := 0, y := 0 }, { x := 7, y := 8 }],
                color := "#000000", size := 5, erase := false }] } ∧
     draw { x := 7, y := 8 } c9BadState =
       Except.error "TypeError: Cannot read properties of undefined") := by
  exact ⟨rfl, rfl, by decide, rfl, rfl,
    c9_draw_spec { x := 7, y := 8 } c4State' c9Open c9BadState []
      { points := [{ x := 0, y := 0 }], color := "#000000",
        size := 5, erase := false }
      rfl rfl (by decide) rfl rfl⟩

/-! ### C7: renderer (redrawCanvas) -/

/-- Live canvas dimensions (`canvas.width` / `canvas.height`, set from the
parent element in `resizeCanvas`, App.tsx lines 43-57). -/
structure Dims where
  width : Int
  height : Int
deriving DecidableEq, Repr

/-- Canvas pixels as the free term algebra over the primitive calls
`redrawCanvas` makes: `clearRect(0, 0, canvas.width, canvas.height)`
(which blanks the whole canvas) and `stroke()` of the path built by
`moveTo`/`lineTo` over a stroke's points, under the current line width,
stroke style and composite operation. -/
inductive PixelBuf where
  | blank (width height : Int)
  | stroked (prev : PixelBuf) (path : List Point) (lineWidth : Int)
      (strokeStyle : String) (compositeOp : String)
deriving DecidableEq, Repr

/-- The mutable 2D-context state `redrawCanvas` touches: the pixels plus
the `lineWidth`, `strokeStyle` and `globalCompositeOperation` registers
that persist on the context between calls. -/
structure CtxState where
  pixels : PixelBuf
  lineWidth : Int
  strokeStyle : String
  compositeOp : String
deriving DecidableEq, Repr

/-- `stroke.erase ? "#fff" : stroke.color` (App.tsx line 71). -/
def strokeStyleOf (st : Stroke) : String :=
  if st.erase then "#fff" else st.color

/-- `stroke.erase ? "destination-out" : "source-over"` (App.tsx line 72). -/
def compositeOf (st : Stroke) : String :=
  if st.erase then "destination-out" else "source-over"

/-- The body of the `history.forEach` loop (App.tsx lines 69-80): set
`lineWidth`, `strokeStyle` and the composite operation from the stroke,
then `beginPath`, walk the points with `moveTo`/`lineTo`, and `stroke()`. -/
def drawStroke (c : CtxState) (st : Stroke) : CtxState :=
  { pixels := PixelBuf.stroked c.pixels st.points st.size
      (strokeStyleOf st) (compositeOf st)
    lineWidth := st.size
    strokeStyle := strokeStyleOf st
    compositeOp := compositeOf st }

/-- `redrawCanvas` (App.tsx lines 62-83): clear the whole canvas, replay
every stroke of `history` in order, then reset the composite operation to
`"source-over"`. -/
def redrawCanvas (history : List Stroke) (d : Dims) (c : CtxState) :
    CtxState :=
  let c1 : CtxState := { c with pixels := PixelBuf.blank d.width d.height }
  let c2 := history.foldl drawStroke c1
  { c2 with compositeOp := "source-over" }

lemma foldl_drawStroke_pixels (history : List Stroke) (c c' : CtxState)
    (hp : c.pixels = c'.pixels) :
    (history.foldl drawStroke c).pixels =
      (history.foldl drawStroke c').pixels := by
  cases history with
  | nil => exact hp
  | cons st rest =>
    have hone : drawStroke c st = drawStroke c' st := by
      simp [drawStroke, hp]
    rw [List.foldl_cons, List.foldl_cons, hone]

/-- C7: the pixels produced by `redrawCanvas` depend only on the History
and the surface dimensions, not on any state accumulated on the context by
earlier calls; in particular calling `redrawCanvas` again on its own
output yields pixel-identical output (idempotence). -/
theorem c7_redraw_idempotent (history : List Stroke) (d : Dims)
    (c c' : CtxState) :
    (redrawCanvas history d c).pixels = (redrawCanvas history d c').pixels ∧
    (redrawCanvas history d (redrawCanvas history d c)).pixels =
      (redrawCanvas history d c).pixels := by
  constructor
  · exact foldl_drawStroke_pixels history
      { c with pixels := PixelBuf.blank d.width d.height }
      { c' with pixels := PixelBuf.blank d.width d.height } rfl
  · exact foldl_drawStroke_pixels history
      { redrawCanvas history d c with
          pixels := PixelBuf.blank d.width d.height }
      { c with pixels := PixelBuf.blank d.width d.height } rfl

/-! ### C5: captureForRecognition -/

/-- The raster `sendToAPI` encodes and posts: `canvas.toDataURL(...)`
(App.tsx lines 175-184, part_002 lines 195-223). Its dimensions are the
canvas element's current width and height and its pixels are whatever the
last `redrawCanvas` left on the canvas. -/
structure CaptureImage where
  width : Int
  height : Int
  pixels : PixelBuf
deriving DecidableEq, Repr

/-- The context of a freshly sized canvas (`resizeCanvas`, App.tsx lines
43-57: a blank surface with default 2D-context register values). -/
def initialCtx (d : Dims) : CtxState :=
  { pixels := PixelBuf.blank d.width d.height
    lineWidth := 1, strokeStyle := "#000000", compositeOp := "source-over" }

/-- The image the speak pipeline captures for recognition: `sendToAPI`
reads `canvas.toDataURL` of the live canvas, whose size is the live
surface size and whose pixels are the redraw of History at that size.
No offscreen surface, rescaling or canonical resolution appears in the
source. -/
def captureForRecognition (history : List Stroke) (live : Dims) :
    CaptureImage :=
  { width := live.width
    height := live.height
    pixels := (redrawCanvas history live (initialCtx live)).pixels }

/-- C5 fails as stated: the image produced for recognition does not have
fixed canonical dimensions — the same (empty) History captured on a
100 by 100 surface and on a 200 by 50 surface yields rasters of different
dimensions, and no rescaling is applied. -/
theorem c5_counterexample :
    (captureForRecognition [] { width := 100, height := 100 }).width ≠
      (captureForRecognition [] { width := 200, height := 50 }).width ∧
    (captureForRecognition [] { width := 100, height := 100 }).height ≠
      (captureForRecognition [] { width := 200, height := 50 }).height := by
  exact ⟨by decide, by decide⟩

/-- Straight-line specification of the pixel content: each Stroke is
rasterised with its recorded points, thickness, style and composite mode
taken verbatim, in History order, over a blank surface of the given size. -/
def pixelsSpec : PixelBuf → List Stroke → PixelBuf
  | buf, [] => buf
  | buf, st :: rest =>
      pixelsSpec (PixelBuf.stroked buf st.points st.size
        (strokeStyleOf st) (compositeOf st)) rest

lemma foldl_drawStroke_pixelsSpec (history : List Stroke) (c : CtxState) :
    (history.foldl drawStroke c).pixels = pixelsSpec c.pixels history := by
  induction history generalizing c with
  | nil => rfl
  | cons st rest ih =>
    rw [List.foldl_cons, ih (drawStroke c st)]
    rfl

/-- C5 (amended): the image produced for recognition has the dimensions of
the live on-screen surface (so it varies with the surface size rather than
being canonical), and every Stroke is rasterised with its coordinates and
thickness used verbatim — no linear rescaling by a canonical-to-live ratio
takes place. -/
theorem c5_capture_spec (history : List Stroke) (live : Dims) :
    (captureForRecognition history live).width = live.width ∧
    (captureForRecognition history live).height = live.height ∧
    (captureForRecognition history live).pixels =
      pixelsSpec (PixelBuf.blank live.width live.height) history := by
  refine ⟨rfl, rfl, ?_⟩
  exact foldl_drawStroke_pixelsSpec history
    { initialCtx live with pixels := PixelBuf.blank live.width live.height }

/-! ### C3 / C10: persistence bridge (localStorage save / load) -/

/-- JSON values, as produced and consumed by `JSON.stringify` /
`JSON.parse`. -/
inductive JVal where
  | jnull
  | jbool (b : Bool)
  | jnum (n : Int)
  | jstr (s : String)
  | jarr (xs : List JVal)
  | jobj (fields : List (String × JVal))

/-- The content of the `"drawing"` localStorage slot, abstracted up to
parseability: a string that `JSON.parse` accepts is identified with the
value it parses to, and any other string is `malformed` (carrying the raw
text; `JSON.parse` throws a SyntaxError on it). `JSON.stringify` never
produces the empty string, so `wellFormed` values are non-empty strings. -/
inductive SlotText where
  | wellFormed (v : JVal)
  | malformed (raw : String)

/-- `JSON.stringify(history)` (App.tsx line 100): `Point` becomes an
object with `x` and `y`, `Stroke` an object with `points`, `color`,
`size`, `erase`, in declaration order. -/
def encodePoint (p : Point) : JVal :=
  JVal.jobj [("x", JVal.jnum p.x), ("y", JVal.jnum p.y)]

def encodeStroke (st : Stroke) : JVal :=
  JVal.jobj [("points", JVal.jarr (st.points.map encodePoint)),
             ("color", JVal.jstr st.color),
             ("size", JVal.jnum st.size),
             ("erase", JVal.jbool st.erase)]

def encodeHistory (h : List Stroke) : JVal :=
  JVal.jarr (h.map encodeStroke)

/-- `localStorage.setItem("drawing", JSON.stringify(history))`
(App.tsx line 100). -/
def saveDrawing (h : List Stroke) : SlotText :=
  SlotText.wellFormed (encodeHistory h)

/-- The startup load (App.tsx lines 88-91):
`const saved = localStorage.getItem("drawing");
 if (saved) setHistory(JSON.parse(saved));`.
The result is the JS value installed as `history` after the effect runs:
the initial `[]` when the slot is absent (or the empty, falsy string),
the parsed value verbatim when the slot parses, and a thrown SyntaxError
(no surrounding try/catch) when the slot text does not parse. -/
def loadDrawing : Option SlotText → Except String JVal
  | none => .ok (JVal.jarr [])
  | some (SlotText.wellFormed v) => .ok v
  | some (SlotText.malformed raw) =>
      if raw = "" then .ok (JVal.jarr [])
      else .error "SyntaxError: Unexpected token in JSON"

/-- Inverse of `encodePoint`, used to state that the installed value
denotes the same History. -/
def decodePoint : JVal → Option Point
  | JVal.jobj [("x", JVal.jnum x), ("y", JVal.jnum y)] =>
      some { x := x, y := y }
  | _ => none

def decodePoints : List JVal → Option (List Point)
  | [] => some []
  | v :: vs =>
    match decodePoint v, decodePoints vs with
    | some p, some ps => some (p :: ps)
    | _, _ => none

def decodeStroke : JVal → Option Stroke
  | JVal.jobj [("points", JVal.jarr ps), ("color", JVal.jstr c),
               ("size", JVal.jnum n), ("erase", JVal.jbool b)] =>
    match decodePoints ps with
    | some pts => some { points := pts, color := c, size := n, erase := b }
    | none => none
  | _ => none

def decodeStrokes : List JVal → Option (List Stroke)
  | [] => some []
  | v :: vs =>
    match decodeStroke v, decodeStrokes vs with
    | some st, some sts => some (st :: sts)
    | _, _ => none

def decodeHistory : JVal → Option (List Stroke)
  | JVal.jarr xs => decodeStrokes xs
  | _ => none

lemma decodePoints_map (ps : List Point) :
    decodePoints (ps.map encodePoint) = some ps := by
  induction ps with
  | nil => rfl
  | cons p rest ih => simp [decodePoints, decodePoint, encodePoint, ih]

lemma decodeStroke_encodeStroke (st : Stroke) :
    decodeStroke (encodeStroke st) = some st := by
  simp [decodeStroke, encodeStroke, decodePoints_map]

lemma decodeStrokes_map (h : List Stroke) :
    decodeStrokes (h.map encodeStroke) = some h := by
  induction h with
  | nil => rfl
  | cons st rest ih =>
    simp [decodeStrokes, decodeStroke_encodeStroke, ih]

lemma decodeHistory_encodeHistory (h : List Stroke) :
    decodeHistory (encodeHistory h) = some h := by
  simp [decodeHistory, encodeHistory, decodeStrokes_map]

/-- C3 fails as stated on its corruption half: a non-empty slot whose text
is not valid JSON makes the startup load throw (`JSON.parse` runs with no
surrounding try/catch), instead of returning the empty History. -/
theorem c3_counterexample :
    loadDrawing (some (SlotText.malformed "corrupt")) =
      Except.error "SyntaxError: Unexpected token in JSON" := by
  rfl

/-- C3 (amended): `save(h)` followed by `load()` installs a value equal to
`h` (the stored encoding decodes back to exactly `h`) for every History
`h`, and `load()` on an absent slot returns the empty History without
raising; but `load()` on a slot whose content is not valid JSON propagates
the parse error (crashing startup) instead of returning the empty
History. -/
theorem c3_save_load_roundtrip (h : List Stroke) (raw : String)
    (hraw : raw ≠ "") :
    loadDrawing (some (saveDrawing h)) = Except.ok (encodeHistory h) ∧
    decodeHistory (encodeHistory h) = some h ∧
    loadDrawing none = Except.ok (encodeHistory []) ∧
    loadDrawing (some (SlotText.malformed raw)) =
      Except.error "SyntaxError: Unexpected token in JSON" := by
  refine ⟨rfl, decodeHistory_encodeHistory h, rfl, ?_⟩
  simp [loadDrawing, hraw]

/-- Witness for C3 at a concrete input: a one-stroke History and the
malformed slot text `"corrupt"`. -/
theorem c3_witness :
    ("corrupt" : String) ≠ "" ∧
    (loadDrawing (some (saveDrawing c1State.history)) =
       Except.ok (encodeHistory c1State.history) ∧
     decodeHistory (encodeHistory c1State.history) = some c1State.history ∧
     loadDrawing none = Except.ok (encodeHistory []) ∧
     loadDrawing (some (SlotText.malformed "corrupt")) =
       Except.error "SyntaxError: Unexpected token in JSON") :=
  ⟨by decide, c3_save_load_roundtrip c1State.history "corrupt" (by decide)⟩

/-- A history violating the committed-Stroke invariant: its single Stroke
has zero Points. -/
def zeroPointHistory : List Stroke :=
  [{ points := [], color := "#000000", size := 5, erase := false }]

/-- C10: the startup load installs whatever JSON value the slot parses to,
verbatim, with no shape validation: any well-formed JSON value — here also
concretely a bare string, which is not a list of Strokes, and the encoding
of a history whose Stroke has zero Points — becomes the installed History
unchanged, so the committed-Stroke invariant is not re-established on
restore. -/
theorem c10_load_verbatim :
    (∀ v : JVal, loadDrawing (some (SlotText.wellFormed v)) = Except.ok v) ∧
    decodeHistory (JVal.jstr "hello") = none ∧
    loadDrawing (some (SlotText.wellFormed (JVal.jstr "hello"))) =
      Except.ok (JVal.jstr "hello") ∧
    zeroPointHistory.any (fun st => st.points.length = 0) = true ∧
    loadDrawing (some (SlotText.wellFormed (encodeHistory zeroPointHistory))) =
      Except.ok (encodeHistory zeroPointHistory) := by
  exact ⟨fun v => rfl, rfl, rfl, rfl, rfl⟩

/-! ### C6: backend /api/speak on empty recognition -/

/-- Whitespace as trimmed by the JS `String.prototype.trim` call on the
OCR description (`detections?.[0]?.description?.trim()`). -/
def isWsChar (c : Char) : Bool :=
  c == ' ' || c == '\t' || c == '\n' || c == '\r'

/-- `.trim()` on a text modelled as a character list: drop whitespace at
both ends. -/
def trimChars (l : List Char) : List Char :=
  ((l.dropWhile isWsChar).reverse.dropWhile isWsChar).reverse

/-- Outcome of the ElevenLabs text-to-speech call
(`ttsResponse.ok` in src/backend/src/index.ts lines 84-108). -/
inductive TtsResult where
  | ok
  | httpError
deriving DecidableEq, Repr

/-- Observable outcome of one `/api/speak` request: the HTTP status sent
and whether the speech-synthesis collaborator was called at all. -/
structure SpeakResponse where
  status : Nat
  ttsCalled : Bool
deriving DecidableEq, Repr

/-- The `/api/speak` handler (src/backend/src/index.ts lines 60-116):
missing (or empty, falsy) `image` gives 400 without OCR or TTS;
`recognizedText = detections?.[0]?.description?.trim() || ""`, and an
empty result gives 444 before the TTS request is ever built; otherwise
the TTS call happens and its failure maps to 500, its success to 200. -/
def speakHandler (image : Option (List Char)) (ocrText : Option (List Char))
    (tts : TtsResult) : SpeakResponse :=
  match image with
  | none => { status := 400, ttsCalled := false }
  | some img =>
    if img = [] then { status := 400, ttsCalled := false }
    else
      let recognizedText := trimChars (ocrText.getD [])
      if recognizedText = [] then { status := 444, ttsCalled := false }
      else
        match tts with
        | TtsResult.ok => { status := 200, ttsCalled := true }
        | TtsResult.httpError => { status := 500, ttsCalled := true }

lemma trimChars_all_ws (l : List Char) (hl : ∀ c ∈ l, isWsChar c = true) :
    trimChars l = [] := by
  have h1 : l.dropWhile isWsChar = [] := List.dropWhile_eq_nil_iff.mpr hl
  simp [trimChars, h1]

/-- C6: when the OCR collaborator returns no text or only whitespace for a
present image, the pipeline answers with the distinct no-text status 444 —
not the generic 500 server error, nor success — and never calls the
speech-synthesis collaborator. -/
theorem c6_no_text_short_circuit (img : List Char) (himg : img ≠ [])
    (ocrText : Option (List Char))
    (hws : ∀ c ∈ ocrText.getD [], isWsChar c = true) (tts : TtsResult) :
    speakHandler (some img) ocrText tts =
      { status := 444, ttsCalled := false } ∧
    (speakHandler (some img) ocrText tts).status ≠ 500 := by
  have htrim : trimChars (ocrText.getD []) = [] :=
    trimChars_all_ws (ocrText.getD []) hws
  constructor
  · simp [speakHandler, himg, htrim]
  · simp [speakHandler, himg, htrim]

/-- Witness for C6 at a concrete input: a one-byte image and an OCR result
consisting of a space and a newline. -/
theorem c6_witness :
    (['i'] : List Char) ≠ [] ∧
    (∀ c ∈ (some [' ', '\n'] : Option (List Char)).getD [],
      isWsChar c = true) ∧
    (speakHandler (some ['i']) (some [' ', '\n']) TtsResult.ok =
       { status := 444, ttsCalled := false } ∧
     (speakHandler (some ['i']) (some [' ', '\n']) TtsResult.ok).status ≠
       500) :=
  ⟨by decide, by decide,
    c6_no_text_short_circuit ['i'] (by decide) (some [' ', '\n'])
      (by decide) TtsResult.ok⟩

/-! ### C8: the speak pipeline never touches the Stroke Store -/

/-- Outcome of the `fetch` to `/api/speak` as seen by the frontend
(part_002 lines 204-222): an ok response with audio, a non-ok HTTP
response whose body text is thrown, or a rejected promise (network
error). -/
inductive FetchOutcome where
  | httpOk
  | httpError (body : String)
  | networkError (msg : String)
deriving DecidableEq, Repr

/-- The frontend state `sendToAPI` can read or write (part_002 lines
22-26): the Stroke Store (`history`, `redo`) and the pipeline UI state
(`error`, `isLoading`). -/
structure UiState where
  history : List Stroke
  redo : List Stroke
  error : Option String
  isLoading : Bool
deriving DecidableEq, Repr

/-- `sendToAPI` (part_002 lines 195-223): early-returns when the canvas
ref is null; sets an error when `toDataURL` gives a falsy string; else
sets loading, clears the error, performs the fetch, on non-ok throws
`Error del servidor: ...` into the catch, stores any error message, and
always (finally) clears the loading flag. It never writes `history` or
`redo`, and it never inspects `isLoading` before running. -/
def sendToAPI (canvasAvailable : Bool) (imageDataUrl : String)
    (outcome : FetchOutcome) (s : UiState) : UiState :=
  if canvasAvailable = false then s
  else if imageDataUrl = "" then
    { s with error := some "No se pudo obtener la imagen del lienzo." }
  else
    match outcome with
    | FetchOutcome.httpOk => { s with error := none, isLoading := false }
    | FetchOutcome.httpError body =>
        { s with error := some ("Error del servidor: " ++ body),
                 isLoading := false }
    | FetchOutcome.networkError msg =>
        { s with error := some msg, isLoading := false }

/-- C8: for every fetch outcome — success, HTTP failure (which includes
the backend's no-text and synthesis-failure responses) and network error —
`sendToAPI` leaves History and the Redo Buffer exactly as they were; and
whenever the call actually runs (canvas present, non-empty data URL) it
finishes with the loading flag cleared, and since it never guards on
`isLoading`, a subsequent speak call is accepted and behaves identically
from the resulting state. -/
theorem c8_speak_preserves_store (c : Bool) (u : String)
    (o : FetchOutcome) (s : UiState) :
    ((sendToAPI c u o s).history = s.history ∧
     (sendToAPI c u o s).redo = s.redo) ∧
    (c = true → u ≠ "" → (sendToAPI c u o s).isLoading = false) ∧
    (∀ o' : FetchOutcome,
      (sendToAPI c u o' (sendToAPI c u o s)).history = s.history ∧
      (sendToAPI c u o' (sendToAPI c u o s)).redo = s.redo) := by
  have frame : ∀ (o₀ : FetchOutcome) (t : UiState),
      (sendToAPI c u o₀ t).history = t.history ∧
      (sendToAPI c u o₀ t).redo = t.redo := by
    intro o₀ t
    cases o₀ <;> by_cases hc : c = false <;> by_cases hu : u = "" <;>
      simp [sendToAPI, hc, hu]
  refine ⟨frame o s, ?_, ?_⟩
  · intro hc hu
    cases o <;> simp [sendToAPI, hc, hu]
  · intro o'
    have h1 := frame o s
    have h2 := frame o' (sendToAPI c u o s)
    exact ⟨h2.1.trans h1.1, h2.2.trans h1.2⟩

/-- Concrete UI state for the C8 witness. -/
def c8State : UiState :=
  { history := c1State.history, redo := [], error := none,
    isLoading := false }

/-- Witness for C8 at a concrete input: a failing synthesis response
(HTTP 500 body) against a one-stroke store. -/
theorem c8_witness :
    (true = true) ∧ (("data:image/png;base64,AAAA" : String) ≠ "") ∧
    (((sendToAPI true "data:image/png;base64,AAAA"
         (FetchOutcome.httpError "Error generando audio") c8State).history =
         c8State.history ∧
      (sendToAPI true "data:image/png;base64,AAAA"
         (FetchOutcome.httpError "Error generando audio") c8State).redo =
         c8State.redo) ∧
     (sendToAPI true "data:image/png;base64,AAAA"
        (FetchOutcome.httpError "Error generando audio") c8State).isLoading =
        false ∧
     (sendToAPI true "data:image/png;base64,AAAA" FetchOutcome.httpOk
        (sendToAPI true "data:image/png;base64,AAAA"
          (FetchOutcome.httpError "Error generando audio") c8State)).history =
        c8State.history) := by
  have h := c8_speak_preserves_store true "data:image/png;base64,AAAA"
    (FetchOutcome.httpError "Error generando audio") c8State
  exact ⟨rfl, by decide,
    ⟨h.1, h.2.1 rfl (by decide), (h.2.2 FetchOutcome.httpOk).1⟩⟩

end VoiceNotes
